import Mathlib

/-!
Shallow embedding of the auto-split plugin (src/main.ts and the later revision
kept in src/unnamed/part_000): the settings record, the direction/threshold
decision, the split procedure, the file-open event handler, the manual split
command, and the load/save settings merge. Host calls (createLeafBySplit,
openFile, setGroupMember, setActiveLeaf) are recorded as fields of a result
record rather than performed.
-/

namespace AutoSplit

/-- The configured split direction setting: vertical, horizontal, or auto. -/
inductive SplitDirectionSetting
  | vertical
  | horizontal
  | auto
  deriving DecidableEq, Repr

/-- A resolved split direction, after the auto rule has been applied. -/
inductive SplitDirection
  | vertical
  | horizontal
  deriving DecidableEq, Repr

/-- A pane type: source (the editor) or preview, as in the PaneTypeSetting
union of the source. -/
inductive PaneType
  | source
  | preview
  deriving DecidableEq, Repr

/-- The type field of a leaf view state; the plugin only acts on markdown views. -/
inductive ViewType
  | markdown
  | other
  deriving DecidableEq, Repr

/-- Pixel dimensions of the main area, as returned by getRootContainerSize. -/
structure RootSize where
  width : Int
  height : Int
  deriving DecidableEq, Repr

/-- The settings record of the current revision (src/unnamed/part_000, lines
301-308): autoSplit, minSize, direction, editorFirst, paneToFocus, linkPanes. -/
structure AutoSplitSettings where
  autoSplit : Bool
  minSize : Int
  direction : SplitDirectionSetting
  editorFirst : Bool
  paneToFocus : PaneType
  linkPanes : Bool
  deriving DecidableEq, Repr

/-- The serializable state of a leaf, as read by getViewState: its view type,
its mode, and its active flag. -/
structure ViewState where
  type : ViewType
  mode : PaneType
  active : Bool
  deriving DecidableEq, Repr

/-- The host-visible effect of one run of splitActiveFile that performed a
split: the direction passed to createLeafBySplit, whether the new leaf is
placed before the original, the view state opened into the new leaf, whether
setGroupMember was called, and whether setActiveLeaf was called on the new
leaf. -/
structure SplitResult where
  direction : SplitDirection
  newPaneBefore : Bool
  newPaneState : ViewState
  grouped : Bool
  focusNewPane : Bool
  deriving DecidableEq, Repr

/-- Direction resolution (src/unnamed/part_000 lines 384-387): the configured
direction, with auto resolved to vertical when width ≥ height and horizontal
otherwise. -/
def resolveDirection (d : SplitDirectionSetting) (rootSize : RootSize) : SplitDirection :=
  match d with
  | SplitDirectionSetting.vertical => SplitDirection.vertical
  | SplitDirectionSetting.horizontal => SplitDirection.horizontal
  | SplitDirectionSetting.auto =>
      if rootSize.width ≥ rootSize.height then SplitDirection.vertical
      else SplitDirection.horizontal

/-- The dimension compared against minSize (src/unnamed/part_000 line 390):
width for a vertical split, height for a horizontal one. -/
def comparedDimension (d : SplitDirection) (rootSize : RootSize) : Int :=
  match d with
  | SplitDirection.vertical => rootSize.width
  | SplitDirection.horizontal => rootSize.height

/-- The mode toggle (src/unnamed/part_000 lines 398-399): preview becomes
source, and source becomes preview. -/
def toggleMode : PaneType → PaneType
  | PaneType.preview => PaneType.source
  | PaneType.source => PaneType.preview

/-- splitActiveFile (src/unnamed/part_000 lines 378-418). The active leaf is
the leaf of the active markdown view, or none; the autoSplit argument is true
on the file-open path and false on the command path. Returns none when no
split happens (no active leaf, the compared dimension is not strictly above
minSize, or the view type is not markdown), otherwise the recorded host
effects. -/
def splitActiveFile (settings : AutoSplitSettings) (activeLeaf : Option ViewState)
    (rootSize : RootSize) (autoSplit : Bool) : Option SplitResult :=
  match activeLeaf with
  | none => none
  | some vs =>
      let direction := resolveDirection settings.direction rootSize
      if comparedDimension direction rootSize > settings.minSize then
        if vs.type = ViewType.markdown then
          let viewState : ViewState :=
            { type := vs.type, mode := toggleMode vs.mode, active := false }
          let firstPane := if settings.editorFirst then PaneType.source else PaneType.preview
          some
            { direction := direction
              newPaneBefore := autoSplit && decide (viewState.mode = firstPane)
              newPaneState := viewState
              grouped := !autoSplit || settings.linkPanes
              focusNewPane := autoSplit && decide (viewState.mode = settings.paneToFocus) }
        else none
      else none

/-- The pair of modes shown by the two panes of a split, leading pane first:
createLeafBySplit places the new leaf before the original exactly when its
third argument is true. -/
def splitPaneOrder (originalMode : PaneType) (r : SplitResult) : PaneType × PaneType :=
  if r.newPaneBefore then (r.newPaneState.mode, originalMode)
  else (originalMode, r.newPaneState.mode)

/-- updateHasOpenFiles (src/unnamed/part_000 lines 323-330): the query result
is the number of markdown leaves, or none when getLeavesOfType throws; the
try/catch makes the update total, and on failure the flag keeps its previous
value. -/
def updateHasOpenFiles (hasOpenFiles : Bool) (query : Option Nat) : Bool :=
  match query with
  | some n => decide (n > 0)
  | none => hasOpenFiles

/-- The environment of one file-open event: whether the event carried a file,
whether the platform is a phone, the number of markdown leaves at event time,
the active markdown view state, the main-area size, and the result of the
post-handler getLeavesOfType query (none when it throws). -/
structure FileOpenEvent where
  file : Bool
  isPhone : Bool
  markdownLeafCount : Nat
  activeLeaf : Option ViewState
  rootSize : RootSize
  refreshQuery : Option Nat
  deriving DecidableEq, Repr

/-- The file-open handler (src/unnamed/part_000 lines 352-366): split when
autoSplit is enabled, the platform is not a phone, exactly one markdown leaf is
open, no open files were recorded, and a file is present; then refresh the
hasOpenFiles flag. Returns the new flag and the split effects, if any. -/
def handleFileOpen (settings : AutoSplitSettings) (hasOpenFiles : Bool)
    (e : FileOpenEvent) : Bool × Option SplitResult :=
  let result :=
    if settings.autoSplit && !e.isPhone && decide (e.markdownLeafCount = 1)
        && !hasOpenFiles && e.file then
      splitActiveFile settings e.activeLeaf e.rootSize true
    else none
  (updateHasOpenFiles hasOpenFiles e.refreshQuery, result)

/-- The manual command (src/unnamed/part_000 lines 337-347, Split and link
current pane): a no-op on phones or without an active editor file, otherwise
splitActiveFile with autoSplit left at its default false. -/
def splitCurrentPaneCommand (settings : AutoSplitSettings) (isPhone : Bool)
    (activeEditorFile : Bool) (activeLeaf : Option ViewState)
    (rootSize : RootSize) : Option SplitResult :=
  if isPhone then none
  else if !activeEditorFile then none
  else splitActiveFile settings activeLeaf rootSize false

/-- The nested platform-enablement object of the src/main.ts settings record;
each field is an Option because after a shallow merge a field of the object
may be absent (undefined). -/
structure EnabledOnFields where
  desktop : Option Bool
  mobile : Option Bool
  deriving DecidableEq, Repr

/-- The in-memory settings record of the src/main.ts revision (lines 6-16)
after loading: top-level fields are always present (the merge over defaults
fills them), but the nested enabledOn object is whatever object the merge
picked, so its fields may be absent. -/
structure SettingsRecord where
  enabledOn : EnabledOnFields
  minSize : Int
  direction : SplitDirectionSetting
  editorFirst : Bool
  paneToFocus : PaneType
  linkPanes : Bool
  deriving DecidableEq, Repr

/-- A persisted settings blob as loadData returns it: every top-level field may
be absent. -/
structure SettingsBlob where
  enabledOn : Option EnabledOnFields
  minSize : Option Int
  direction : Option SplitDirectionSetting
  editorFirst : Option Bool
  paneToFocus : Option PaneType
  linkPanes : Option Bool
  deriving DecidableEq, Repr

/-- DEFAULT_SETTINGS of src/main.ts (lines 18-28). -/
def DEFAULT_SETTINGS : SettingsRecord :=
  { enabledOn := { desktop := some true, mobile := some true }
    minSize := 1000
    direction := SplitDirectionSetting.auto
    editorFirst := true
    paneToFocus := PaneType.source
    linkPanes := true }

/-- loadSettings (src/main.ts lines 140-146): Object.assign over the defaults
is a shallow merge, so each top-level field present in the blob replaces the
default wholesale; in particular a present enabledOn object is taken as-is. -/
def loadSettings (data : SettingsBlob) : SettingsRecord :=
  { enabledOn := data.enabledOn.getD DEFAULT_SETTINGS.enabledOn
    minSize := data.minSize.getD DEFAULT_SETTINGS.minSize
    direction := data.direction.getD DEFAULT_SETTINGS.direction
    editorFirst := data.editorFirst.getD DEFAULT_SETTINGS.editorFirst
    paneToFocus := data.paneToFocus.getD DEFAULT_SETTINGS.paneToFocus
    linkPanes := data.linkPanes.getD DEFAULT_SETTINGS.linkPanes }

/-- saveSettings (src/main.ts lines 148-150): saveData persists the whole
in-memory record, so every field of the blob is present. -/
def saveSettings (s : SettingsRecord) : SettingsBlob :=
  { enabledOn := some s.enabledOn
    minSize := some s.minSize
    direction := some s.direction
    editorFirst := some s.editorFirst
    paneToFocus := some s.paneToFocus
    linkPanes := some s.linkPanes }

/-- A blob with every field absent. -/
def emptyData : SettingsBlob :=
  { enabledOn := none, minSize := none, direction := none, editorFirst := none
    paneToFocus := none, linkPanes := none }

/-- A blob persisting only enabledOn.desktop, leaving enabledOn.mobile and all
other fields absent. -/
def exampleStoredData : SettingsBlob :=
  { enabledOn := some { desktop := some false, mobile := none }
    minSize := none, direction := none, editorFirst := none
    paneToFocus := none, linkPanes := none }

/-- Default-valued settings of the current revision. -/
def exampleSettings : AutoSplitSettings :=
  { autoSplit := true, minSize := 1000, direction := SplitDirectionSetting.auto
    editorFirst := true, paneToFocus := PaneType.source, linkPanes := true }

/-- Default-valued settings with linkPanes off. -/
def exampleSettingsNoLink : AutoSplitSettings :=
  { autoSplit := true, minSize := 1000, direction := SplitDirectionSetting.auto
    editorFirst := true, paneToFocus := PaneType.source, linkPanes := false }

/-- A markdown view state in source mode. -/
def exampleView : ViewState :=
  { type := ViewType.markdown, mode := PaneType.source, active := true }

/-- A 1200x800 main area. -/
def exampleSize : RootSize := { width := 1200, height := 800 }

/-- A file-open event on desktop with one markdown leaf and a present file. -/
def exampleEvent : FileOpenEvent :=
  { file := true, isPhone := false, markdownLeafCount := 1
    activeLeaf := some exampleView, rootSize := exampleSize, refreshQuery := some 2 }

/-- The split effects of exampleSettings on exampleView in a 1200x800 area on
the automatic path: a vertical split, new pane after, preview mode, grouped,
not focused. -/
def exampleResult : SplitResult :=
  { direction := SplitDirection.vertical, newPaneBefore := false
    newPaneState := { type := ViewType.markdown, mode := PaneType.preview, active := false }
    grouped := true, focusNewPane := false }

/-- C2: with direction set to auto, the resolved direction is vertical exactly
when the main-area width is at least its height (vertical at equality), and
horizontal exactly when the width is strictly below the height. -/
theorem resolveDirection_auto_rule (w h : Int) :
    (resolveDirection SplitDirectionSetting.auto { width := w, height := h }
        = SplitDirection.vertical ↔ w ≥ h) ∧
    (resolveDirection SplitDirectionSetting.auto { width := w, height := h }
        = SplitDirection.horizontal ↔ w < h) := by
  by_cases hc : w ≥ h <;> (simp [resolveDirection, hc]; try omega)

/-- C9: when the markdown-leaf query fails, updateHasOpenFiles keeps the flag
at exactly its previous value and, being a total function, propagates no
error; when the query succeeds the flag records whether the count is
positive. -/
theorem updateHasOpenFiles_swallows_failure :
    (∀ b : Bool, updateHasOpenFiles b none = b) ∧
    (∀ (b : Bool) (n : Nat), updateHasOpenFiles b (some n) = decide (n > 0)) :=
  ⟨fun _ => rfl, fun _ _ => rfl⟩

/-- C1: for a file-open event that passes the platform and empty-workspace
checks (autoSplit on, not a phone, one markdown leaf, hasOpenFiles false, a
file present, an active markdown view), a split is performed iff the compared
dimension (width when the resolved direction is vertical, height when
horizontal) is strictly greater than minSize; when it equals minSize no split
occurs. -/
theorem file_open_minSize_gate (settings : AutoSplitSettings) (b : Bool)
    (e : FileOpenEvent) (vs : ViewState)
    (h1 : settings.autoSplit = true) (h2 : e.isPhone = false)
    (h3 : e.markdownLeafCount = 1) (h4 : b = false) (h5 : e.file = true)
    (h6 : e.activeLeaf = some vs) (h7 : vs.type = ViewType.markdown) :
    ((handleFileOpen settings b e).2 ≠ none ↔
      comparedDimension (resolveDirection settings.direction e.rootSize) e.rootSize
        > settings.minSize) ∧
    (comparedDimension (resolveDirection settings.direction e.rootSize) e.rootSize
        = settings.minSize → (handleFileOpen settings b e).2 = none) := by
  subst h4
  simp only [handleFileOpen, h1, h2, h3, h5, h6, splitActiveFile, h7]
  by_cases hg : comparedDimension (resolveDirection settings.direction e.rootSize) e.rootSize
      > settings.minSize
  · simp [hg]
    omega
  · simp [hg]

/-- C1 witness: with default settings in a 1200x800 main area, the gate
equivalence holds at the concrete event. -/
theorem file_open_minSize_gate_witness :
    ((handleFileOpen exampleSettings false exampleEvent).2 ≠ none ↔
      comparedDimension (resolveDirection exampleSettings.direction exampleEvent.rootSize)
        exampleEvent.rootSize > exampleSettings.minSize) ∧
    (comparedDimension (resolveDirection exampleSettings.direction exampleEvent.rootSize)
        exampleEvent.rootSize = exampleSettings.minSize →
      (handleFileOpen exampleSettings false exampleEvent).2 = none) :=
  file_open_minSize_gate exampleSettings false exampleEvent exampleView
    rfl rfl rfl rfl rfl rfl rfl

/-- C3: whenever splitActiveFile performs a split, on either path, the new
pane opens in the complementary mode of the original view: source becomes
preview and preview becomes source. -/
theorem split_mode_complement (settings : AutoSplitSettings) (vs : ViewState)
    (rootSize : RootSize) (a : Bool) (r : SplitResult)
    (h : splitActiveFile settings (some vs) rootSize a = some r) :
    (vs.mode = PaneType.source → r.newPaneState.mode = PaneType.preview) ∧
    (vs.mode = PaneType.preview → r.newPaneState.mode = PaneType.source) := by
  simp only [splitActiveFile] at h
  split_ifs at h
  all_goals injection h with h
  all_goals subst h
  all_goals cases hm : vs.mode <;> simp_all [toggleMode]

/-- C3 witness: the concrete split of a source-mode view yields a preview-mode
new pane. -/
theorem split_mode_complement_witness :
    (exampleView.mode = PaneType.source →
      exampleResult.newPaneState.mode = PaneType.preview) ∧
    (exampleView.mode = PaneType.preview →
      exampleResult.newPaneState.mode = PaneType.source) :=
  split_mode_complement exampleSettings exampleView exampleSize true exampleResult rfl

/-- C4: whenever the hasOpenFiles flag records that note views were already
open, the file-open handler performs no automatic split, and it always
refreshes the flag through updateHasOpenFiles afterwards. -/
theorem no_auto_split_when_files_open (settings : AutoSplitSettings) (b : Bool)
    (e : FileOpenEvent) (h : b = true) :
    (handleFileOpen settings b e).2 = none ∧
    (handleFileOpen settings b e).1 = updateHasOpenFiles b e.refreshQuery := by
  subst h
  exact ⟨by simp [handleFileOpen], rfl⟩

/-- C4 witness: with the flag set, the concrete event produces no split. -/
theorem no_auto_split_when_files_open_witness :
    (handleFileOpen exampleSettings true exampleEvent).2 = none ∧
    (handleFileOpen exampleSettings true exampleEvent).1 =
      updateHasOpenFiles true exampleEvent.refreshQuery :=
  no_auto_split_when_files_open exampleSettings true exampleEvent rfl

/-- C5 counterexample: the claim that a partial enabledOn object is completed
from the defaults fails. Persisting only enabledOn.desktop and reloading
leaves enabledOn.mobile absent, although the default records it as true: the
Object.assign merge is shallow. -/
theorem loadSettings_shallow_merge_counterexample :
    (loadSettings exampleStoredData).enabledOn.mobile = none ∧
    DEFAULT_SETTINGS.enabledOn.mobile = some true :=
  ⟨rfl, rfl⟩

/-- C5 (amended): saving the in-memory settings record and reloading it yields
an identical record; a blob omitting top-level fields takes those whole fields
from the defaults (an empty blob loads as the defaults); but the merge is
shallow, so a present enabledOn object is taken as-is and its absent subfields
are not filled from the defaults. -/
theorem loadSettings_roundtrip_and_shallow_merge :
    (∀ s : SettingsRecord, loadSettings (saveSettings s) = s) ∧
    loadSettings emptyData = DEFAULT_SETTINGS ∧
    (∀ p : EnabledOnFields,
      (loadSettings { emptyData with enabledOn := some p }).enabledOn = p) :=
  ⟨fun _ => rfl, rfl, fun _ => rfl⟩

/-- C6: for every automatic split, the leading pane of the split shows source
mode when editorFirst is true and preview mode when it is false, whatever the
resolved direction. -/
theorem editorFirst_leading_pane (settings : AutoSplitSettings) (vs : ViewState)
    (rootSize : RootSize) (r : SplitResult)
    (h : splitActiveFile settings (some vs) rootSize true = some r) :
    (splitPaneOrder vs.mode r).1 =
      (if settings.editorFirst then PaneType.source else PaneType.preview) := by
  simp only [splitActiveFile] at h
  split_ifs at h
  all_goals injection h with h
  all_goals subst h
  all_goals cases hm : vs.mode <;> simp_all [splitPaneOrder, toggleMode]

/-- C6 witness: with editorFirst true, the concrete automatic split keeps the
source pane in the leading position. -/
theorem editorFirst_leading_pane_witness :
    (splitPaneOrder exampleView.mode exampleResult).1 =
      (if exampleSettings.editorFirst then PaneType.source else PaneType.preview) :=
  editorFirst_leading_pane exampleSettings exampleView exampleSize exampleResult rfl

/-- C7: after an automatic split the new pane is made active and focused iff
its toggled mode equals paneToFocus; a manual-command split never calls
setActiveLeaf, so the paneToFocus rule is not applied on that path. -/
theorem paneToFocus_rule (settings : AutoSplitSettings) (vs : ViewState)
    (rootSize : RootSize) (r r' : SplitResult)
    (h : splitActiveFile settings (some vs) rootSize true = some r)
    (h' : splitActiveFile settings (some vs) rootSize false = some r') :
    (r.focusNewPane = true ↔ r.newPaneState.mode = settings.paneToFocus) ∧
    r'.focusNewPane = false := by
  simp only [splitActiveFile] at h h'
  split_ifs at h h'
  all_goals injection h with h
  all_goals injection h' with h'
  all_goals subst h
  all_goals subst h'
  all_goals simp

/-- C7 witness: at the concrete inputs the focus rule holds on both paths. -/
theorem paneToFocus_rule_witness :
    (exampleResult.focusNewPane = true ↔
      exampleResult.newPaneState.mode = exampleSettings.paneToFocus) ∧
    exampleResult.focusNewPane = false :=
  paneToFocus_rule exampleSettings exampleView exampleSize exampleResult exampleResult
    rfl rfl

/-- C8 counterexample: with linkPanes false a manual-command split still
registers the two panes as a group, so for that performed split grouping is
not equivalent to linkPanes. -/
theorem linkPanes_grouping_counterexample :
    exampleSettingsNoLink.linkPanes = false ∧
    (splitActiveFile exampleSettingsNoLink (some exampleView) exampleSize false).map
      SplitResult.grouped = some true :=
  ⟨rfl, rfl⟩

/-- C8 (amended): for every automatic split the panes are registered as a
group iff linkPanes is enabled (with linkPanes false two panes are created and
no grouping call is made); a manual-command split always groups the panes,
regardless of linkPanes. -/
theorem linkPanes_grouping_rule (settings : AutoSplitSettings) (vs : ViewState)
    (rootSize : RootSize) (r r' : SplitResult)
    (h : splitActiveFile settings (some vs) rootSize true = some r)
    (h' : splitActiveFile settings (some vs) rootSize false = some r') :
    r.grouped = settings.linkPanes ∧ r'.grouped = true := by
  simp only [splitActiveFile] at h h'
  split_ifs at h h'
  all_goals injection h with h
  all_goals injection h' with h'
  all_goals subst h
  all_goals subst h'
  all_goals simp

/-- C8 witness: at the concrete inputs the automatic split's grouping equals
linkPanes and the manual split is grouped. -/
theorem linkPanes_grouping_rule_witness :
    exampleResult.grouped = exampleSettings.linkPanes ∧
    exampleResult.grouped = true :=
  linkPanes_grouping_rule exampleSettings exampleView exampleSize exampleResult
    exampleResult rfl rfl

/-- C10: the manual command, invoked off a phone with an active editor file
and an active markdown view, splits iff the compared dimension under the same
direction resolution as the automatic path (including the auto rule) is
strictly greater than minSize, and any split it performs uses exactly that
resolved direction; otherwise it silently performs no split. -/
theorem manual_command_same_gate (settings : AutoSplitSettings) (vs : ViewState)
    (rootSize : RootSize) (h : vs.type = ViewType.markdown) :
    (splitCurrentPaneCommand settings false true (some vs) rootSize ≠ none ↔
      comparedDimension (resolveDirection settings.direction rootSize) rootSize
        > settings.minSize) ∧
    (∀ r : SplitResult,
      splitCurrentPaneCommand settings false true (some vs) rootSize = some r →
      r.direction = resolveDirection settings.direction rootSize) := by
  simp only [splitCurrentPaneCommand, splitActiveFile, h]
  by_cases hg : comparedDimension (resolveDirection settings.direction rootSize) rootSize
      > settings.minSize
  · constructor
    · simp [hg]
    · intro r hr
      simp [hg] at hr
      rw [← hr]
  · simp [hg]

/-- C10 witness: at the concrete inputs the manual command's gate equivalence
and direction agreement hold. -/
theorem manual_command_same_gate_witness :
    (splitCurrentPaneCommand exampleSettings false true (some exampleView) exampleSize
        ≠ none ↔
      comparedDimension (resolveDirection exampleSettings.direction exampleSize)
        exampleSize > exampleSettings.minSize) ∧
    (∀ r : SplitResult,
      splitCurrentPaneCommand exampleSettings false true (some exampleView) exampleSize
        = some r →
      r.direction = resolveDirection exampleSettings.direction exampleSize) :=
  manual_command_same_gate exampleSettings exampleView exampleSize rfl

end AutoSplit
